import Mathlib

/-!
Verification of the coordination core of the bug-finder/coding-agent system:
a shallow embedding of `SharedController` (src/utils/shared_controller.py),
the severity-policy dispatch of `BugFinderAgent._check_for_bugs`, the import
and linter scans of `BugFinderAgent`, and the shutdown control flow of
`AgentOrchestrator.run` (src/utils/agent_orchestrator.py), together with
theorems settling the specification's claims about them.

Machine integers do not occur; timestamps (`datetime.now()`) are modelled as
an abstract `Nat` supplied by the caller, and Python exceptions as `Except`
or explicit outcome types.
-/

/-- Embeds the `BugInsight` dataclass (shared_controller.py lines 14-27):
bug_type, description, severity ("low"/"medium"/"high"/"critical"),
optional file path, line number, suggested fix, and a timestamp that the
dataclass leaves `None` until `__post_init__` fills it. -/
structure BugInsight where
  bug_type : String
  description : String
  severity : String
  file_path : Option String := none
  line_number : Option Int := none
  suggested_fix : Option String := none
  timestamp : Option Nat := none
deriving DecidableEq, Repr

/-- Embeds `BugInsight.__post_init__`: if no timestamp was supplied at
construction, record the current time `now`. -/
def BugInsight.post_init (now : Nat) (i : BugInsight) : BugInsight :=
  if i.timestamp = none then { i with timestamp := some now } else i

/-- One entry of `SharedController.agent_context`: the dict
`{"type": "bug_insight", "insight": insight, "timestamp": insight.timestamp}`
appended by `inject_insight`. -/
structure ContextEntry where
  entry_type : String
  insight : BugInsight
  timestamp : Option Nat
deriving DecidableEq, Repr

/-- The mutable state of one `SharedController` instance
(shared_controller.py lines 33-49): the three `asyncio.Event`s as Booleans
(`true` = set), the insights queue as a FIFO list (head = oldest), the
append-only agent context, and the pause/turn bookkeeping. -/
structure ControllerState where
  pause_event : Bool
  resume_event : Bool
  shutdown_event : Bool
  insights_queue : List BugInsight
  agent_context : List ContextEntry
  is_paused : Bool
  pause_reason : Option String
  agent_turn_count : Nat
deriving DecidableEq, Repr

namespace SharedController

/-- `SharedController.__init__`: all events cleared except `resume_event`,
which is initialised set ("agent can run"); queue and context empty. -/
def init : ControllerState :=
  { pause_event := false
    resume_event := true
    shutdown_event := false
    insights_queue := []
    agent_context := []
    is_paused := false
    pause_reason := none
    agent_turn_count := 0 }

/-- `SharedController.request_pause` (lines 51-58): only when not already
paused, set `pause_event`, record the reason, and clear `resume_event`. -/
def request_pause (s : ControllerState) (reason : String) : ControllerState :=
  if !s.is_paused then
    { s with pause_event := true
             is_paused := true
             pause_reason := some reason
             resume_event := false }
  else s

/-- `SharedController.inject_insight` (lines 60-71): enqueue the insight
(`put_nowait`, FIFO) and append the mirrored context entry carrying the
insight's own timestamp. -/
def inject_insight (s : ControllerState) (i : BugInsight) : ControllerState :=
  { s with insights_queue := s.insights_queue ++ [i]
           agent_context := s.agent_context ++ [⟨"bug_insight", i, i.timestamp⟩] }

/-- `SharedController.request_resume` (lines 73-80): only when paused, clear
`pause_event`, forget the reason, and set `resume_event`. -/
def request_resume (s : ControllerState) : ControllerState :=
  if s.is_paused then
    { s with pause_event := false
             is_paused := false
             pause_reason := none
             resume_event := true }
  else s

/-- The state effect of `SharedController.checkpoint` (lines 82-95): the
turn counter is incremented; no other field is touched. -/
def checkpoint_state (s : ControllerState) : ControllerState :=
  { s with agent_turn_count := s.agent_turn_count + 1 }

/-- `checkpoint` suspends (`await self.resume_event.wait()`) exactly when
`pause_event` is set and `resume_event` is clear at the call. -/
def checkpointSuspends (s : ControllerState) : Bool :=
  s.pause_event && !s.resume_event

/-- The value `checkpoint` returns once it proceeds:
`not self.shutdown_event.is_set()`. -/
def checkpointReturn (s : ControllerState) : Bool :=
  !s.shutdown_event

/-- `SharedController.get_insights` (lines 97-106): drain the whole queue
with `get_nowait` until empty, returning the insights oldest first and
leaving the queue empty. -/
def get_insights (s : ControllerState) : List BugInsight × ControllerState :=
  (s.insights_queue, { s with insights_queue := [] })

/-- `SharedController.shutdown` (lines 123-127): set `shutdown_event` and
set `resume_event` to unblock any waiting agents. -/
def shutdown (s : ControllerState) : ControllerState :=
  { s with shutdown_event := true, resume_event := true }

end SharedController

/-- One call into the `SharedController` from either worker. -/
inductive Op where
  | request_pause (reason : String)
  | request_resume
  | inject_insight (i : BugInsight)
  | checkpoint
  | get_insights
  | shutdown
deriving DecidableEq, Repr

/-- The state transition of one controller call. -/
def applyOp (s : ControllerState) : Op → ControllerState
  | .request_pause r => SharedController.request_pause s r
  | .request_resume => SharedController.request_resume s
  | .inject_insight i => SharedController.inject_insight s i
  | .checkpoint => SharedController.checkpoint_state s
  | .get_insights => (SharedController.get_insights s).2
  | .shutdown => SharedController.shutdown s

/-- Apply a sequence of controller calls, oldest first. -/
def applyOps (s : ControllerState) (ops : List Op) : ControllerState :=
  ops.foldl applyOp s

/-- States reachable from a freshly constructed controller by some sequence
of calls. -/
def Reachable (s : ControllerState) : Prop :=
  ∃ ops : List Op, applyOps SharedController.init ops = s

/-- Injecting a list of findings one after the other
(the pattern `inject(); inject(); ...` with no intervening drain). -/
def injectAll (s : ControllerState) (fs : List BugInsight) : ControllerState :=
  fs.foldl SharedController.inject_insight s

theorem injectAll_queue (fs : List BugInsight) :
    ∀ s : ControllerState, (injectAll s fs).insights_queue = s.insights_queue ++ fs := by
  induction fs with
  | nil => intro s; simp [injectAll]
  | cons f fs ih =>
      intro s
      simp only [injectAll, List.foldl_cons]
      have h := ih (SharedController.inject_insight s f)
      simp only [injectAll] at h
      rw [h]
      simp [SharedController.inject_insight]

/-- C3: starting from a state whose mailbox is empty, injecting any list of
findings and then draining returns exactly those findings in injection
order and leaves the mailbox empty, so an immediately following drain
returns the empty sequence; draining an empty mailbox returns the empty
sequence. -/
theorem c3_inject_then_drain (s : ControllerState) (fs : List BugInsight)
    (h : s.insights_queue = []) :
    (SharedController.get_insights (injectAll s fs)).1 = fs ∧
    (SharedController.get_insights
      (SharedController.get_insights (injectAll s fs)).2).1 = [] ∧
    (SharedController.get_insights s).1 = [] := by
  refine ⟨?_, ?_, ?_⟩
  · simp [SharedController.get_insights, injectAll_queue, h]
  · simp [SharedController.get_insights]
  · simp [SharedController.get_insights, h]

theorem c3_inject_then_drain_witness :
    (SharedController.get_insights (injectAll SharedController.init
      [⟨"todo_comment", "t", "low", none, none, none, none⟩,
       ⟨"test_failure", "f", "high", none, none, none, none⟩])).1 =
      [⟨"todo_comment", "t", "low", none, none, none, none⟩,
       ⟨"test_failure", "f", "high", none, none, none, none⟩] ∧
    (SharedController.get_insights (SharedController.get_insights
      (injectAll SharedController.init
        [⟨"todo_comment", "t", "low", none, none, none, none⟩,
         ⟨"test_failure", "f", "high", none, none, none, none⟩])).2).1 = [] ∧
    (SharedController.get_insights SharedController.init).1 = [] :=
  c3_inject_then_drain SharedController.init
    [⟨"todo_comment", "t", "low", none, none, none, none⟩,
     ⟨"test_failure", "f", "high", none, none, none, none⟩] (by decide)

/-- C4: calling `request_pause` while already paused is a no-op: the whole
controller state is unchanged, so in particular `is_paused` stays true,
`pause_reason` keeps the previously recorded value, and the
pause-requested and may-proceed events are untouched. -/
theorem c4_request_pause_idempotent (s : ControllerState) (reason2 : String)
    (h : s.is_paused = true) :
    SharedController.request_pause s reason2 = s ∧
    (SharedController.request_pause s reason2).is_paused = true ∧
    (SharedController.request_pause s reason2).pause_reason = s.pause_reason ∧
    (SharedController.request_pause s reason2).pause_event = s.pause_event ∧
    (SharedController.request_pause s reason2).resume_event = s.resume_event := by
  have hs : SharedController.request_pause s reason2 = s := by
    simp [SharedController.request_pause, h]
  exact ⟨hs, by rw [hs]; exact h, by rw [hs], by rw [hs], by rw [hs]⟩

theorem c4_request_pause_idempotent_witness :
    SharedController.request_pause
      (SharedController.request_pause SharedController.init "first reason") "second reason" =
      SharedController.request_pause SharedController.init "first reason" ∧
    (SharedController.request_pause
      (SharedController.request_pause SharedController.init "first reason")
        "second reason").is_paused = true ∧
    (SharedController.request_pause
      (SharedController.request_pause SharedController.init "first reason")
        "second reason").pause_reason =
      (SharedController.request_pause SharedController.init "first reason").pause_reason ∧
    (SharedController.request_pause
      (SharedController.request_pause SharedController.init "first reason")
        "second reason").pause_event =
      (SharedController.request_pause SharedController.init "first reason").pause_event ∧
    (SharedController.request_pause
      (SharedController.request_pause SharedController.init "first reason")
        "second reason").resume_event =
      (SharedController.request_pause SharedController.init "first reason").resume_event :=
  c4_request_pause_idempotent
    (SharedController.request_pause SharedController.init "first reason")
    "second reason" (by decide)

/-- Whether a call is a `request_pause` (with any reason). -/
def isRequestPause : Op → Bool
  | .request_pause _ => true
  | _ => false

theorem applyOp_shutdown_mono (s : ControllerState) (op : Op)
    (h : s.shutdown_event = true) : (applyOp s op).shutdown_event = true := by
  cases op <;>
    simp only [applyOp, SharedController.request_pause, SharedController.request_resume,
      SharedController.inject_insight, SharedController.checkpoint_state,
      SharedController.get_insights, SharedController.shutdown] <;>
    first
      | exact h
      | rfl
      | (split <;> exact h)

theorem applyOps_shutdown_mono (ops : List Op) :
    ∀ s : ControllerState, s.shutdown_event = true →
      (applyOps s ops).shutdown_event = true := by
  induction ops with
  | nil => intro s h; exact h
  | cons op rest ih =>
      intro s h
      simp only [applyOps, List.foldl_cons]
      exact ih (applyOp s op) (applyOp_shutdown_mono s op h)

theorem applyOp_resume_stays_true (s : ControllerState) (op : Op)
    (hop : isRequestPause op = false) (h : s.resume_event = true) :
    (applyOp s op).resume_event = true := by
  cases op <;>
    simp only [applyOp, SharedController.request_pause, SharedController.request_resume,
      SharedController.inject_insight, SharedController.checkpoint_state,
      SharedController.get_insights, SharedController.shutdown] <;>
    first
      | exact h
      | rfl
      | (split <;> first | rfl | exact h)
      | exact absurd hop (by simp [isRequestPause])

theorem applyOps_resume_stays_true (ops : List Op) :
    ∀ s : ControllerState, (∀ op ∈ ops, isRequestPause op = false) →
      s.resume_event = true → (applyOps s ops).resume_event = true := by
  induction ops with
  | nil => intro s _ h; exact h
  | cons op rest ih =>
      intro s hops h
      simp only [applyOps, List.foldl_cons]
      exact ih (applyOp s op) (fun o ho => hops o (List.mem_cons_of_mem op ho))
        (applyOp_resume_stays_true s op (hops op (List.mem_cons_self op rest)) h)

/-- C1 (amended): after `shutdown()` every later `checkpoint()` returns
`false`; and as long as no `request_pause` call happens after the shutdown,
the checkpoint also does not suspend (the may-proceed event stays set). -/
theorem c1_checkpoint_after_shutdown (s : ControllerState) (ops : List Op) :
    SharedController.checkpointReturn (applyOps (SharedController.shutdown s) ops) = false ∧
    ((∀ op ∈ ops, isRequestPause op = false) →
      SharedController.checkpointSuspends (applyOps (SharedController.shutdown s) ops) = false) := by
  constructor
  · have h : (applyOps (SharedController.shutdown s) ops).shutdown_event = true :=
      applyOps_shutdown_mono ops (SharedController.shutdown s) rfl
    simp [SharedController.checkpointReturn, h]
  · intro hops
    have h : (applyOps (SharedController.shutdown s) ops).resume_event = true :=
      applyOps_resume_stays_true ops (SharedController.shutdown s) hops rfl
    simp [SharedController.checkpointSuspends, h]

/-- C1 counterexample: the claim "after shutdown, checkpoint() does not
suspend regardless of any request_pause calls made after shutdown" is false:
after `shutdown()` followed by `request_pause`, the next `checkpoint()`
finds the pause event set and the resume event cleared, so it suspends
(its return value, once it ever proceeds, would still be `false`). -/
theorem c1_counterexample :
    SharedController.checkpointSuspends
      (applyOps SharedController.init [Op.shutdown, Op.request_pause "late pause"]) = true ∧
    SharedController.checkpointReturn
      (applyOps SharedController.init [Op.shutdown, Op.request_pause "late pause"]) = false := by
  decide

theorem c1_checkpoint_after_shutdown_witness :
    SharedController.checkpointReturn
      (applyOps (SharedController.shutdown SharedController.init)
        [Op.request_resume, Op.checkpoint]) = false ∧
    SharedController.checkpointSuspends
      (applyOps (SharedController.shutdown SharedController.init)
        [Op.request_resume, Op.checkpoint]) = false :=
  ⟨(c1_checkpoint_after_shutdown SharedController.init [Op.request_resume, Op.checkpoint]).1,
   (c1_checkpoint_after_shutdown SharedController.init [Op.request_resume, Op.checkpoint]).2
     (by decide)⟩

/-- A worker suspended in `checkpoint()` (waiting on the resume event)
unblocks as soon as some prefix of the later calls has set the resume
event. -/
def unblocks (s : ControllerState) (ops : List Op) : Prop :=
  ∃ k : Nat, (applyOps s (ops.take k)).resume_event = true

theorem applyOp_resume_stays_false (s : ControllerState) (op : Op)
    (h1 : op ≠ Op.request_resume) (h2 : op ≠ Op.shutdown)
    (h : s.resume_event = false) : (applyOp s op).resume_event = false := by
  cases op <;>
    simp only [applyOp, SharedController.request_pause, SharedController.request_resume,
      SharedController.inject_insight, SharedController.checkpoint_state,
      SharedController.get_insights, SharedController.shutdown] <;>
    first
      | exact h
      | (split <;> first | rfl | exact h)
      | exact absurd rfl h1
      | exact absurd rfl h2

theorem applyOp_paused_stays_true (s : ControllerState) (op : Op)
    (h1 : op ≠ Op.request_resume) (h : s.is_paused = true) :
    (applyOp s op).is_paused = true := by
  cases op <;>
    simp only [applyOp, SharedController.request_pause, SharedController.request_resume,
      SharedController.inject_insight, SharedController.checkpoint_state,
      SharedController.get_insights, SharedController.shutdown] <;>
    first
      | exact h
      | (split <;> first | rfl | exact h)
      | exact absurd rfl h1

theorem resume_never_set (ops : List Op) :
    ∀ s : ControllerState,
      (∀ op ∈ ops, op ≠ Op.request_resume ∧ op ≠ Op.shutdown) →
      s.resume_event = false → ∀ k : Nat, (applyOps s (ops.take k)).resume_event = false := by
  induction ops with
  | nil => intro s _ h k; simpa [applyOps] using h
  | cons op rest ih =>
      intro s hops h k
      cases k with
      | zero => simpa [applyOps] using h
      | succ k =>
          simp only [List.take_succ_cons, applyOps, List.foldl_cons]
          have hop := hops op (List.mem_cons_self op rest)
          exact ih (applyOp s op) (fun o ho => hops o (List.mem_cons_of_mem op ho))
            (applyOp_resume_stays_false s op hop.1 hop.2 h) k

theorem unblocks_of_mem (ops : List Op) :
    ∀ s : ControllerState, s.is_paused = true →
      (Op.request_resume ∈ ops ∨ Op.shutdown ∈ ops) → unblocks s ops := by
  induction ops with
  | nil => intro s _ hmem; simp at hmem
  | cons op rest ih =>
      intro s hp hmem
      by_cases hr : op = Op.request_resume
      · refine ⟨1, ?_⟩
        subst hr
        simp [applyOps, applyOp, SharedController.request_resume, hp]
      · by_cases hs : op = Op.shutdown
        · refine ⟨1, ?_⟩
          subst hs
          simp [applyOps, applyOp, SharedController.shutdown]
        · have hmem' : Op.request_resume ∈ rest ∨ Op.shutdown ∈ rest := by
            rcases hmem with hm | hm
            · rcases List.mem_cons.mp hm with h | h
              · exact absurd h.symm hr
              · exact Or.inl h
            · rcases List.mem_cons.mp hm with h | h
              · exact absurd h.symm hs
              · exact Or.inr h
          obtain ⟨k, hk⟩ := ih (applyOp s op) (applyOp_paused_stays_true s op hr hp) hmem'
          refine ⟨k + 1, ?_⟩
          simpa [List.take_succ_cons, applyOps, List.foldl_cons] using hk

/-- C2: a Consumer suspended inside `checkpoint()` (paused, resume event
cleared) unblocks if and only if the subsequent call sequence contains a
`request_resume` or a `shutdown`; and `shutdown()` always sets the
may-proceed (resume) event, whatever the current state. -/
theorem c2_unblock_iff_resume_or_shutdown (s t : ControllerState) (ops : List Op)
    (hp : s.is_paused = true) (hr : s.resume_event = false) :
    (unblocks s ops ↔ (Op.request_resume ∈ ops ∨ Op.shutdown ∈ ops)) ∧
    (SharedController.shutdown t).resume_event = true := by
  constructor
  · constructor
    · intro hub
      by_contra hmem
      push_neg at hmem
      obtain ⟨k, hk⟩ := hub
      have : (applyOps s (ops.take k)).resume_event = false := by
        refine resume_never_set ops s ?_ hr k
        intro op hop
        constructor
        · intro heq; exact hmem.1 (heq ▸ hop)
        · intro heq; exact hmem.2 (heq ▸ hop)
      rw [this] at hk
      exact Bool.false_ne_true hk
    · exact unblocks_of_mem ops s hp
  · rfl

theorem c2_unblock_iff_resume_or_shutdown_witness :
    (unblocks (applyOps SharedController.init [Op.request_pause "bug found"]) [Op.shutdown] ↔
      (Op.request_resume ∈ [Op.shutdown] ∨ Op.shutdown ∈ [Op.shutdown])) ∧
    (SharedController.shutdown SharedController.init).resume_event = true :=
  c2_unblock_iff_resume_or_shutdown
    (applyOps SharedController.init [Op.request_pause "bug found"])
    SharedController.init [Op.shutdown] (by decide) (by decide)

/-- The pause-state consistency invariant of C10. -/
def pauseInvariant (s : ControllerState) : Prop :=
  s.pause_event = s.is_paused ∧
  (s.is_paused = true ↔ s.pause_reason ≠ none) ∧
  (s.shutdown_event = false → s.resume_event = !s.is_paused)

theorem pauseInvariant_init : pauseInvariant SharedController.init := by
  refine ⟨rfl, ?_, fun _ => rfl⟩
  simp [SharedController.init]

theorem pauseInvariant_step (s : ControllerState) (op : Op)
    (h : pauseInvariant s) : pauseInvariant (applyOp s op) := by
  obtain ⟨h1, h2, h3⟩ := h
  cases op with
  | request_pause r =>
      simp only [applyOp, SharedController.request_pause]
      split
      · exact ⟨rfl, by simp, fun _ => rfl⟩
      · exact ⟨h1, h2, h3⟩
  | request_resume =>
      simp only [applyOp, SharedController.request_resume]
      split
      · exact ⟨rfl, by simp, fun _ => rfl⟩
      · exact ⟨h1, h2, h3⟩
  | inject_insight i => exact ⟨h1, h2, h3⟩
  | checkpoint => exact ⟨h1, h2, h3⟩
  | get_insights => exact ⟨h1, h2, h3⟩
  | shutdown =>
      refine ⟨h1, h2, ?_⟩
      intro hfalse
      exact absurd hfalse (by simp [applyOp, SharedController.shutdown])

theorem pauseInvariant_reachable (s : ControllerState) (h : Reachable s) :
    pauseInvariant s := by
  obtain ⟨ops, rfl⟩ := h
  suffices hgen : ∀ t : ControllerState, pauseInvariant t → pauseInvariant (applyOps t ops) from
    hgen SharedController.init pauseInvariant_init
  induction ops with
  | nil => intro t ht; exact ht
  | cons op rest ih =>
      intro t ht
      exact ih (applyOp t op) (pauseInvariant_step t op ht)

/-- C10: in every reachable controller state, `is_paused` agrees with the
pause-requested event and with `pause_reason` being set, and while shutdown
has not been requested the may-proceed (resume) event is set exactly when
the controller is not paused. -/
theorem c10_pause_state_consistent (s : ControllerState) (h : Reachable s) :
    s.pause_event = s.is_paused ∧
    (s.is_paused = true ↔ s.pause_reason ≠ none) ∧
    (s.shutdown_event = false → s.resume_event = !s.is_paused) :=
  pauseInvariant_reachable s h

theorem c10_pause_state_consistent_witness :
    (applyOps SharedController.init [Op.request_pause "inspect", Op.checkpoint]).pause_event =
      (applyOps SharedController.init [Op.request_pause "inspect", Op.checkpoint]).is_paused ∧
    ((applyOps SharedController.init [Op.request_pause "inspect", Op.checkpoint]).is_paused = true ↔
      (applyOps SharedController.init [Op.request_pause "inspect", Op.checkpoint]).pause_reason ≠ none) ∧
    ((applyOps SharedController.init [Op.request_pause "inspect", Op.checkpoint]).shutdown_event = false →
      (applyOps SharedController.init [Op.request_pause "inspect", Op.checkpoint]).resume_event =
        !(applyOps SharedController.init [Op.request_pause "inspect", Op.checkpoint]).is_paused) :=
  c10_pause_state_consistent
    (applyOps SharedController.init [Op.request_pause "inspect", Op.checkpoint])
    ⟨[Op.request_pause "inspect", Op.checkpoint], rfl⟩

/-- The reason string `_check_for_bugs` passes to `request_pause` for a
high/critical finding (bug_finder_agent.py line 79). -/
def criticalPauseReason (i : BugInsight) : String :=
  "Critical bug detected: " ++ i.bug_type

/-- The sequence of Coordinator calls one iteration of the severity-policy
loop in `BugFinderAgent._check_for_bugs` (lines 76-84) makes for one
insight: high/critical pause-inject-resume, medium inject only, anything
else (in particular low) nothing. The `asyncio.sleep(1)` between inject and
resume touches no controller state and is omitted. -/
def policyCalls (i : BugInsight) : List Op :=
  if i.severity = "high" ∨ i.severity = "critical" then
    [Op.request_pause (criticalPauseReason i), Op.inject_insight i, Op.request_resume]
  else if i.severity = "medium" then
    [Op.inject_insight i]
  else []

/-- The controller-state effect of processing one finding in
`_check_for_bugs`. -/
def processInsight (s : ControllerState) (i : BugInsight) : ControllerState :=
  applyOps s (policyCalls i)

/-- Processing a whole detection pass's findings in order. -/
def processInsights (s : ControllerState) (l : List BugInsight) : ControllerState :=
  l.foldl processInsight s

/-- C5: the severity policy of one `_check_for_bugs` pass per finding: a
high or critical finding triggers exactly request_pause (with the
"Critical bug detected" reason), then inject, then request_resume; a
medium finding triggers exactly one inject; a low finding triggers no
Coordinator call at all, so it leaves the controller state — in
particular the mailbox — unchanged. -/
theorem c5_severity_policy (i : BugInsight) :
    (i.severity = "high" ∨ i.severity = "critical" →
      policyCalls i = [Op.request_pause ("Critical bug detected: " ++ i.bug_type),
        Op.inject_insight i, Op.request_resume]) ∧
    (i.severity = "medium" → policyCalls i = [Op.inject_insight i]) ∧
    (i.severity = "low" →
      policyCalls i = [] ∧
      ∀ s : ControllerState, processInsight s i = s ∧
        (processInsight s i).insights_queue = s.insights_queue) := by
  refine ⟨?_, ?_, ?_⟩
  · intro h
    simp [policyCalls, criticalPauseReason, h]
  · intro h
    have hne : ¬("medium" = "high" ∨ "medium" = "critical") := by decide
    simp [policyCalls, h, hne]
  · intro h
    have hne : ¬("low" = "high" ∨ "low" = "critical") := by decide
    have hne2 : ¬("low" = "medium") := by decide
    have hcalls : policyCalls i = [] := by simp [policyCalls, h, hne, hne2]
    refine ⟨hcalls, fun s => ?_⟩
    have hs : processInsight s i = s := by simp [processInsight, hcalls, applyOps]
    exact ⟨hs, by rw [hs]⟩

theorem c5_severity_policy_witness :
    policyCalls ⟨"test_failure", "tests failed", "high", none, none, none, none⟩ =
      [Op.request_pause ("Critical bug detected: " ++ "test_failure"),
       Op.inject_insight ⟨"test_failure", "tests failed", "high", none, none, none, none⟩,
       Op.request_resume] ∧
    policyCalls ⟨"large_file", "big", "medium", none, none, none, none⟩ =
      [Op.inject_insight ⟨"large_file", "big", "medium", none, none, none, none⟩] ∧
    policyCalls ⟨"todo_comment", "todo", "low", none, none, none, none⟩ = [] ∧
    processInsight SharedController.init
      ⟨"todo_comment", "todo", "low", none, none, none, none⟩ = SharedController.init :=
  ⟨(c5_severity_policy ⟨"test_failure", "tests failed", "high", none, none, none, none⟩).1
      (Or.inl rfl),
   (c5_severity_policy ⟨"large_file", "big", "medium", none, none, none, none⟩).2.1 rfl,
   ((c5_severity_policy ⟨"todo_comment", "todo", "low", none, none, none, none⟩).2.2 rfl).1,
   (((c5_severity_policy ⟨"todo_comment", "todo", "low", none, none, none, none⟩).2.2 rfl).2
      SharedController.init).1⟩

/-- Outcome of one Python coroutine/task: normal return, an `Exception`
carrying a message, or cancellation (`asyncio.CancelledError` derives from
`BaseException` and escapes `except Exception` handlers). -/
inductive PyOutcome where
  | ret
  | exn (msg : String)
  | cancelled
deriving DecidableEq, Repr

/-- `BugFinderAgent.run_loop` (bug_finder_agent.py lines 46-59) wraps its
polling loop in `try/except Exception`: any exception from the loop body
is logged and swallowed, so the task ends normally; only cancellation
propagates out of the task. -/
def run_loop_result (body : PyOutcome) : PyOutcome :=
  match body with
  | .ret => .ret
  | .exn _ => .ret
  | .cancelled => .cancelled

/-- `AgentOrchestrator.shutdown` (agent_orchestrator.py lines 153-176) in
the situation where the coding task has already completed: it calls
`controller.shutdown()`, then cancels the still-pending bug-finder task
and awaits it inside `try/except asyncio.CancelledError`. It can raise
only if awaiting the detector task surfaces a non-cancellation
exception. -/
def orchestrator_shutdown (detectorBody : PyOutcome) : PyOutcome :=
  match run_loop_result detectorBody with
  | .ret => .ret
  | .exn e => .exn e
  | .cancelled => .ret

/-- What `AgentOrchestrator.run` leaves behind: how it ends, whether
`controller.shutdown()` was called, and whether the bug-finder task is
done by the time `run` returns or re-raises. -/
structure RunResult where
  result : PyOutcome
  controller_shutdown : Bool
  detector_terminated : Bool
deriving DecidableEq, Repr

/-- `AgentOrchestrator.run` (lines 68-97): awaits the coding task; on
success calls `controller.shutdown()` and joins the detector task. If the
coding task raised an `Exception`, the handler calls `self.shutdown()` and
then re-raises the original exception with a bare `raise` — unless
`shutdown()` itself raised, in which case that exception propagates
instead, replacing the original. Cancellation of the coding task is not
caught by `except Exception`. -/
def orchestrator_run (consumer : PyOutcome) (detectorBody : PyOutcome) : RunResult :=
  match consumer with
  | .ret =>
      { result := .ret
        controller_shutdown := true
        detector_terminated := true }
  | .exn e =>
      match orchestrator_shutdown detectorBody with
      | .exn e2 =>
          { result := .exn e2
            controller_shutdown := true
            detector_terminated := false }
      | _ =>
          { result := .exn e
            controller_shutdown := true
            detector_terminated := true }
  | .cancelled =>
      { result := .cancelled
        controller_shutdown := false
        detector_terminated := false }

/-- C6: when the coding (Consumer) task ends with an exception, `run`
still shuts the Coordinator down, the detector task is fully terminated by
the time `run` re-raises, and the exception the caller sees is exactly the
Consumer's original one — shutdown cannot mask it, because the detector
loop swallows every `Exception` and cancellation is caught, so
`orchestrator_shutdown` never raises. -/
theorem c6_consumer_failure_shutdown (e : String) (detectorBody : PyOutcome) :
    orchestrator_run (PyOutcome.exn e) detectorBody =
      { result := PyOutcome.exn e
        controller_shutdown := true
        detector_terminated := true } := by
  cases detectorBody <;> rfl

/-- C9: a Finding is never modified after construction: `__post_init__`
only fills a missing timestamp at construction time and preserves every
other field; every controller operation leaves each insight already in the
mailbox or context log unchanged (any insight observable afterwards is
either a previously stored value or the exact injected one), and draining
returns the stored insights themselves. -/
theorem c9_finding_immutable :
    (∀ (now : Nat) (i : BugInsight),
      (BugInsight.post_init now i).bug_type = i.bug_type ∧
      (BugInsight.post_init now i).description = i.description ∧
      (BugInsight.post_init now i).severity = i.severity ∧
      (BugInsight.post_init now i).file_path = i.file_path ∧
      (BugInsight.post_init now i).line_number = i.line_number ∧
      (BugInsight.post_init now i).suggested_fix = i.suggested_fix ∧
      (i.timestamp = none → (BugInsight.post_init now i).timestamp = some now) ∧
      (i.timestamp ≠ none → (BugInsight.post_init now i).timestamp = i.timestamp)) ∧
    (∀ (s : ControllerState) (op : Op) (j : BugInsight),
      j ∈ (applyOp s op).insights_queue →
        j ∈ s.insights_queue ∨ op = Op.inject_insight j) ∧
    (∀ (s : ControllerState) (op : Op) (e : ContextEntry),
      e ∈ (applyOp s op).agent_context →
        e ∈ s.agent_context ∨
          (op = Op.inject_insight e.insight ∧ e.entry_type = "bug_insight" ∧
            e.timestamp = e.insight.timestamp)) ∧
    (∀ s : ControllerState, (SharedController.get_insights s).1 = s.insights_queue) := by
  refine ⟨?_, ?_, ?_, fun s => rfl⟩
  · intro now i
    by_cases h : i.timestamp = none <;>
      simp [BugInsight.post_init, h]
  · intro s op j hj
    cases op with
    | request_pause r =>
        refine Or.inl ?_
        simp only [applyOp, SharedController.request_pause] at hj
        split at hj <;> simpa using hj
    | request_resume =>
        refine Or.inl ?_
        simp only [applyOp, SharedController.request_resume] at hj
        split at hj <;> simpa using hj
    | inject_insight i =>
        simp only [applyOp, SharedController.inject_insight, List.mem_append,
          List.mem_singleton] at hj
        rcases hj with h | h
        · exact Or.inl h
        · exact Or.inr (by rw [h])
    | checkpoint =>
        exact Or.inl (by simpa [applyOp, SharedController.checkpoint_state] using hj)
    | get_insights =>
        simp [applyOp, SharedController.get_insights] at hj
    | shutdown =>
        exact Or.inl (by simpa [applyOp, SharedController.shutdown] using hj)
  · intro s op e he
    cases op with
    | request_pause r =>
        refine Or.inl ?_
        simp only [applyOp, SharedController.request_pause] at he
        split at he <;> simpa using he
    | request_resume =>
        refine Or.inl ?_
        simp only [applyOp, SharedController.request_resume] at he
        split at he <;> simpa using he
    | inject_insight i =>
        simp only [applyOp, SharedController.inject_insight, List.mem_append,
          List.mem_singleton] at he
        rcases he with h | h
        · exact Or.inl h
        · exact Or.inr (by rw [h]; exact ⟨rfl, rfl, rfl⟩)
    | checkpoint =>
        exact Or.inl (by simpa [applyOp, SharedController.checkpoint_state] using he)
    | get_insights =>
        exact Or.inl (by simpa [applyOp, SharedController.get_insights] using he)
    | shutdown =>
        exact Or.inl (by simpa [applyOp, SharedController.shutdown] using he)

theorem c9_finding_immutable_witness :
    (BugInsight.post_init 7 ⟨"missing_import", "m", "high", none, none, none, none⟩).severity =
      (⟨"missing_import", "m", "high", none, none, none, none⟩ : BugInsight).severity ∧
    (BugInsight.post_init 7
      ⟨"missing_import", "m", "high", none, none, none, none⟩).timestamp = some 7 ∧
    ((⟨"missing_import", "m", "high", none, none, none, some 3⟩ : BugInsight) ∈
        SharedController.init.insights_queue ∨
      Op.inject_insight ⟨"missing_import", "m", "high", none, none, none, some 3⟩ =
        Op.inject_insight ⟨"missing_import", "m", "high", none, none, none, some 3⟩) ∧
    (SharedController.get_insights SharedController.init).1 =
      SharedController.init.insights_queue :=
  ⟨(c9_finding_immutable.1 7 ⟨"missing_import", "m", "high", none, none, none, none⟩).2.2.1,
   (c9_finding_immutable.1 7 ⟨"missing_import", "m", "high", none, none, none, none⟩).2.2.2.2.2.2.1
     rfl,
   c9_finding_immutable.2.1 SharedController.init
     (Op.inject_insight ⟨"missing_import", "m", "high", none, none, none, some 3⟩)
     ⟨"missing_import", "m", "high", none, none, none, some 3⟩ (by decide),
   c9_finding_immutable.2.2.2 SharedController.init⟩

/-- What `__import__(module_name)` does for one module in the current
environment (bug_finder_agent.py lines 243-268): succeeds, raises
`ImportError` (module missing), or raises some other exception while
loading. -/
inductive ImportOutcome where
  | success
  | importError (msg : String)
  | otherError (msg : String)
deriving DecidableEq, Repr

/-- The environment the import scan runs against: which names are
standard-library modules (`sys.stdlib_module_names`) and how
`__import__` behaves on each module name. -/
structure ImportEnv where
  stdlib : String → Bool
  import_module : String → ImportOutcome

/-- One absolute (non-relative) import reference collected from a file's
AST (lines 222-233): the dotted module name and the line number. -/
structure ImportRef where
  module : String
  lineno : Int
deriving DecidableEq, Repr

/-- `top_level` (lines 208-209): `mod.split(".")[0]`. -/
def top_level (mod : String) : String :=
  (mod.splitOn ".").headD mod

/-- The findings the import scan produces for one collected import
reference (lines 236-268): standard-library names are skipped; an
`ImportError` yields one high-severity `missing_import` insight whose
remedy names the top-level package; any other load-time exception yields
one medium-severity `import_error` insight; success yields nothing. -/
def check_import (env : ImportEnv) (now : Nat) (path : String) (r : ImportRef) :
    List BugInsight :=
  if env.stdlib r.module then []
  else
    match env.import_module r.module with
    | .success => []
    | .importError e =>
        [BugInsight.post_init now
          { bug_type := "missing_import"
            description := "Missing package: " ++ r.module ++ " - " ++ e
            severity := "high"
            file_path := some path
            line_number := some r.lineno
            suggested_fix := some ("Install missing package: pip install " ++ top_level r.module) }]
    | .otherError e =>
        [BugInsight.post_init now
          { bug_type := "import_error"
            description := "Import error for " ++ r.module ++ ": " ++ e
            severity := "medium"
            file_path := some path
            line_number := some r.lineno
            suggested_fix := some ("Check if " ++ r.module ++ " is properly installed and accessible") }]

/-- One workspace source file as the import scan sees it: its path and
either the import references collected from its parsed AST, or `none` when
`ast.parse` raised (`SyntaxError` or any other parse failure, lines
212-220), in which case the scan skips the file. -/
structure PyFile where
  path : String
  imports : Option (List ImportRef)

/-- The import-scan findings for one file (`_check_missing_imports` body
per file). -/
def check_file_imports (env : ImportEnv) (now : Nat) (f : PyFile) : List BugInsight :=
  match f.imports with
  | none => []
  | some refs => refs.flatMap (check_import env now f.path)

/-- `BugFinderAgent._check_missing_imports` (lines 199-273) over the
workspace's files. -/
def check_missing_imports (env : ImportEnv) (now : Nat) (files : List PyFile) :
    List BugInsight :=
  files.flatMap (check_file_imports env now)

/-- C7: a file whose AST fails to parse contributes no findings to
the import scan; for a non-standard-library reference, an unresolvable import
yields exactly one high-severity `missing_import` finding whose remedy
names the top-level package, a reference that loads with a
non-ImportError exception yields exactly one medium-severity
`import_error` finding, and a resolvable one yields none; a
standard-library reference yields none. -/
theorem c7_import_scan (env : ImportEnv) (now : Nat) (f : PyFile) (path : String)
    (r : ImportRef) :
    (f.imports = none → check_file_imports env now f = []) ∧
    (env.stdlib r.module = false → ∀ e : String,
      (env.import_module r.module = ImportOutcome.importError e →
        (check_import env now path r).map BugInsight.severity = ["high"] ∧
        (check_import env now path r).map BugInsight.bug_type = ["missing_import"] ∧
        (check_import env now path r).map BugInsight.suggested_fix =
          [some ("Install missing package: pip install " ++ top_level r.module)]) ∧
      (env.import_module r.module = ImportOutcome.otherError e →
        (check_import env now path r).map BugInsight.severity = ["medium"] ∧
        (check_import env now path r).map BugInsight.bug_type = ["import_error"]) ∧
      (env.import_module r.module = ImportOutcome.success →
        check_import env now path r = [])) ∧
    (env.stdlib r.module = true → check_import env now path r = []) := by
  refine ⟨?_, ?_, ?_⟩
  · intro h
    simp [check_file_imports, h]
  · intro hstd e
    refine ⟨?_, ?_, ?_⟩
    · intro himp
      simp [check_import, hstd, himp, BugInsight.post_init]
    · intro himp
      simp [check_import, hstd, himp, BugInsight.post_init]
    · intro himp
      simp [check_import, hstd, himp]
  · intro hstd
    simp [check_import, hstd]

/-- A concrete environment for exercising the import scan: only `os` is a
standard-library name, `nonexistent_module_xyz` is missing, and
`half_broken.pkg` loads but raises. -/
def importEnvW : ImportEnv :=
  { stdlib := fun m => m == "os"
    import_module := fun m =>
      if m == "nonexistent_module_xyz" then
        ImportOutcome.importError "No module named nonexistent_module_xyz"
      else if m == "half_broken.pkg" then
        ImportOutcome.otherError "boom"
      else ImportOutcome.success }

theorem c7_import_scan_witness :
    check_file_imports importEnvW 0 { path := "bad.py", imports := none } = [] ∧
    (check_import importEnvW 0 "app.py"
      { module := "nonexistent_module_xyz", lineno := 1 }).map BugInsight.severity = ["high"] ∧
    (check_import importEnvW 0 "app.py"
      { module := "nonexistent_module_xyz", lineno := 1 }).map BugInsight.bug_type =
        ["missing_import"] ∧
    (check_import importEnvW 0 "app.py"
      { module := "nonexistent_module_xyz", lineno := 1 }).map BugInsight.suggested_fix =
        [some ("Install missing package: pip install " ++
          top_level "nonexistent_module_xyz")] ∧
    (check_import importEnvW 0 "app.py"
      { module := "half_broken.pkg", lineno := 4 }).map BugInsight.severity = ["medium"] ∧
    (check_import importEnvW 0 "app.py"
      { module := "half_broken.pkg", lineno := 4 }).map BugInsight.bug_type = ["import_error"] ∧
    check_import importEnvW 0 "app.py" { module := "os", lineno := 2 } = [] :=
  ⟨(c7_import_scan importEnvW 0 { path := "bad.py", imports := none } "bad.py"
      { module := "os", lineno := 2 }).1 rfl,
   ((c7_import_scan importEnvW 0 { path := "app.py", imports := some [] } "app.py"
      { module := "nonexistent_module_xyz", lineno := 1 }).2.1 (by decide)
      "No module named nonexistent_module_xyz").1 (by decide) |>.1,
   ((c7_import_scan importEnvW 0 { path := "app.py", imports := some [] } "app.py"
      { module := "nonexistent_module_xyz", lineno := 1 }).2.1 (by decide)
      "No module named nonexistent_module_xyz").1 (by decide) |>.2.1,
   ((c7_import_scan importEnvW 0 { path := "app.py", imports := some [] } "app.py"
      { module := "nonexistent_module_xyz", lineno := 1 }).2.1 (by decide)
      "No module named nonexistent_module_xyz").1 (by decide) |>.2.2,
   ((c7_import_scan importEnvW 0 { path := "app.py", imports := some [] } "app.py"
      { module := "half_broken.pkg", lineno := 4 }).2.1 (by decide) "boom").2.1
      (by decide) |>.1,
   ((c7_import_scan importEnvW 0 { path := "app.py", imports := some [] } "app.py"
      { module := "half_broken.pkg", lineno := 4 }).2.1 (by decide) "boom").2.1
      (by decide) |>.2,
   (c7_import_scan importEnvW 0 { path := "app.py", imports := some [] } "app.py"
      { module := "os", lineno := 2 }).2.2 (by decide)⟩

deriving instance DecidableEq for Except

/-- Python `str.strip()` on a character list: drop whitespace from both
ends. -/
def pyStripChars (cs : List Char) : List Char :=
  ((cs.dropWhile Char.isWhitespace).reverse.dropWhile Char.isWhitespace).reverse

/-- Python `str.strip()`. -/
def pyStrip (s : String) : String :=
  String.mk (pyStripChars s.toList)

def pySplitAllAux (sep : Char) : List Char → List Char → List String
  | [], acc => [String.mk acc.reverse]
  | c :: rest, acc =>
      if c = sep then String.mk acc.reverse :: pySplitAllAux sep rest []
      else pySplitAllAux sep rest (c :: acc)

/-- Python `str.split(sep)` for a one-character separator (empty pieces
kept, as Python does). -/
def pySplit (s : String) (sep : Char) : List String :=
  pySplitAllAux sep s.toList []

def pySplitMaxAux (sep : Char) : List Char → Nat → List Char → List String
  | [], _, acc => [String.mk acc.reverse]
  | c :: rest, 0, acc => pySplitMaxAux sep rest 0 (c :: acc)
  | c :: rest, Nat.succ n, acc =>
      if c = sep then String.mk acc.reverse :: pySplitMaxAux sep rest n []
      else pySplitMaxAux sep rest (Nat.succ n) (c :: acc)

/-- Python `str.split(sep, maxsplit)`: split at the first `maxsplit`
occurrences of `sep`; the remainder stays in the last piece. -/
def pySplitMax (s : String) (sep : Char) (maxsplit : Nat) : List String :=
  pySplitMaxAux sep s.toList maxsplit []

/-- Python `str.lower()` (ASCII case folding suffices for the linter
keywords involved). -/
def pyLower (s : String) : String :=
  String.mk (s.toList.map Char.toLower)

def startsWithSub : List Char → List Char → Bool
  | _, [] => true
  | [], _ :: _ => false
  | c :: t, n :: ns => c = n && startsWithSub t ns

def containsSub (needle : List Char) : List Char → Bool
  | [] => needle.isEmpty
  | c :: t => startsWithSub (c :: t) needle || containsSub needle t

/-- Python `sub in hay` on strings. -/
def pyContains (hay sub : String) : Bool :=
  containsSub sub.toList hay.toList

def digitsVal (ds : List Char) : Int :=
  ds.foldl (fun a c => a * 10 + ((c.toNat : Int) - 48)) 0

/-- Python `int(s)`: optional sign and decimal digits after stripping
surrounding whitespace; anything else raises `ValueError`, modelled as
`Except.error`. -/
def pyInt (s : String) : Except Unit Int :=
  match pyStripChars s.toList with
  | '-' :: ds =>
      if ds ≠ [] ∧ ds.all Char.isDigit then Except.ok (-(digitsVal ds)) else Except.error ()
  | '+' :: ds =>
      if ds ≠ [] ∧ ds.all Char.isDigit then Except.ok (digitsVal ds) else Except.error ()
  | ds =>
      if ds ≠ [] ∧ ds.all Char.isDigit then Except.ok (digitsVal ds) else Except.error ()

/-- The severity `_parse_linter_output` derives from one diagnostic
message (bug_finder_agent.py lines 318-324): "error" in the lowered
message gives high, else "warning" gives medium, else low. -/
def lineSeverity (message : String) : String :=
  if pyContains (pyLower message) "error" then "high"
  else if pyContains (pyLower message) "warning" then "medium"
  else "low"

/-- The body of `_parse_linter_output`'s per-line handling once the line
has been split as `line.split(':', 3)` (lines 311-333): fewer than four
parts skips the line; non-numeric line/column fields raise `ValueError`
(`Except.error`); otherwise one `linting_error` insight is built from the
trimmed message. -/
def parseLineParts (now : Nat) (parts : List String) : Except Unit (Option BugInsight) :=
  if 4 ≤ parts.length then
    match pyInt (parts.getD 1 ""), pyInt (parts.getD 2 "") with
    | .ok line_num, .ok _ =>
        Except.ok (some (BugInsight.post_init now
          { bug_type := "linting_error"
            description := pyStrip (parts.getD 3 "")
            severity := lineSeverity (pyStrip (parts.getD 3 ""))
            file_path := some (parts.getD 0 "")
            line_number := some line_num
            suggested_fix := some ("Fix linting issue: " ++ pyStrip (parts.getD 3 "")) }))
    | _, _ => Except.error ()
  else Except.ok none

/-- One iteration of the `for line in ...` loop: empty lines are skipped
(`if line:`), others go through `parseLineParts`. -/
def parseLine (now : Nat) (line : String) : Except Unit (Option BugInsight) :=
  if line = "" then Except.ok none
  else parseLineParts now (pySplitMax line ':' 3)

/-- The whole loop of `_parse_linter_output`: a `ValueError` on any line
aborts the call (losing the insights gathered so far). -/
def parseLines (now : Nat) : List String → Except Unit (List BugInsight)
  | [] => Except.ok []
  | l :: ls =>
      match parseLine now l with
      | .error e => Except.error e
      | .ok none => parseLines now ls
      | .ok (some i) =>
          match parseLines now ls with
          | .error e => Except.error e
          | .ok rest => Except.ok (i :: rest)

/-- `BugFinderAgent._parse_linter_output` (lines 303-335): only the
`python` linter type with non-empty stdout is parsed at all; the stdout is
stripped and split on newlines. The unused `stderr` parameter mirrors the
source signature. -/
def parse_linter_output (now : Nat) (stdout _stderr linter_type : String) :
    Except Unit (List BugInsight) :=
  if linter_type = "python" ∧ stdout ≠ "" then
    parseLines now (pySplit (pyStrip stdout) '\n')
  else Except.ok []

/-- One category iteration of `BugFinderAgent._run_linters` (lines
95-108): no files of the category means the linter is not run; a zero exit
status yields nothing; otherwise the stdout is parsed, and an exception
escaping the parse (`ValueError` from `int`) is caught by the per-category
handler, losing every insight of that category. -/
def runLinterCategory (now : Nat) (linter_type : String) (files : List String)
    (returncode : Int) (stdout stderr : String) : List BugInsight :=
  if files.isEmpty then []
  else if returncode ≠ 0 then
    match parse_linter_output now stdout stderr linter_type with
    | .ok insights => insights
    | .error _ => []
  else []

theorem parseLines_eq_filterMap (now : Nat) (ls : List String)
    (h : ∀ l ∈ ls, parseLine now l ≠ Except.error ()) :
    parseLines now ls =
      Except.ok (ls.filterMap fun l => ((parseLine now l).toOption.bind id)) := by
  induction ls with
  | nil => rfl
  | cons l ls ih =>
      have hl : parseLine now l ≠ Except.error () := h l (List.mem_cons_self l ls)
      have hrest := ih (fun x hx => h x (List.mem_cons_of_mem l hx))
      cases hcase : parseLine now l with
      | error e => cases e; exact absurd hcase hl
      | ok o =>
          cases o with
          | none => simp [parseLines, hcase, hrest, Except.toOption]
          | some i => simp [parseLines, hcase, hrest, Except.toOption]

theorem parseLine_severity (now : Nat) (l : String) (i : BugInsight)
    (h : parseLine now l = Except.ok (some i)) :
    i.severity = lineSeverity i.description ∧ i.bug_type = "linting_error" := by
  unfold parseLine at h
  split at h
  · simp at h
  · unfold parseLineParts at h
    split at h
    · split at h
      · simp only [Except.ok.injEq, Option.some.injEq] at h
        subst h
        simp [BugInsight.post_init]
      · exact Except.noConfusion h
    · simp at h

/-- C8 (amended): only the `python` category's linter output is ever
parsed — the `javascript` and `typescript` categories yield no findings
whatever the exit status and output; for python output in which every
diagnostic line parses cleanly, the run yields exactly one finding per
parseable line (lines with fewer than four colon-separated fields are
skipped), each with severity derived from keyword matching on its
message; and a category with no files yields nothing. -/
theorem c8_linter_findings :
    (∀ (now : Nat) (out err : String),
      parse_linter_output now out err "javascript" = Except.ok [] ∧
      parse_linter_output now out err "typescript" = Except.ok []) ∧
    (∀ (now : Nat) (ls : List String),
      (∀ l ∈ ls, parseLine now l ≠ Except.error ()) →
      parseLines now ls =
        Except.ok (ls.filterMap fun l => ((parseLine now l).toOption.bind id))) ∧
    (∀ (now : Nat) (l : String) (i : BugInsight),
      parseLine now l = Except.ok (some i) →
      i.severity = lineSeverity i.description ∧ i.bug_type = "linting_error") ∧
    (∀ (now : Nat) (lt : String) (ret : Int) (out err : String),
      runLinterCategory now lt [] ret out err = []) := by
  refine ⟨?_, parseLines_eq_filterMap, parseLine_severity, ?_⟩
  · intro now out err
    constructor
    · have hc : ¬(("javascript" : String) = "python" ∧ out ≠ "") :=
        fun hand => absurd hand.1 (by decide)
      simp [parse_linter_output, hc]
    · have hc : ¬(("typescript" : String) = "python" ∧ out ≠ "") :=
        fun hand => absurd hand.1 (by decide)
      simp [parse_linter_output, hc]
  · intro now lt ret out err
    simp [runLinterCategory]

/-- C8 counterexample: the same parseable diagnostic line that yields a
finding for the `python` category yields none for the `javascript`
category with files present and a non-zero exit status, because
`_parse_linter_output` parses only python output. -/
theorem c8_counterexample :
    runLinterCategory 0 "javascript" ["app.js"] 1 "app.js:3:5: error no-undef" "" = [] ∧
    runLinterCategory 0 "python" ["app.py"] 1 "app.js:3:5: error no-undef" "" ≠ [] := by
  constructor
  · decide
  · decide

/-- The insight the python parser produces for the concrete witness line
`a.py:1:2: E999 error bad`. -/
def witnessLintInsight : BugInsight :=
  { bug_type := "linting_error"
    description := "E999 error bad"
    severity := "high"
    file_path := some "a.py"
    line_number := some 1
    suggested_fix := some "Fix linting issue: E999 error bad"
    timestamp := some 0 }

theorem c8_linter_findings_witness :
    parse_linter_output 0 "some output" "err" "javascript" = Except.ok [] ∧
    parseLines 0 ["a.py:1:2: E999 error bad"] =
      Except.ok (["a.py:1:2: E999 error bad"].filterMap
        fun l => ((parseLine 0 l).toOption.bind id)) ∧
    witnessLintInsight.severity = lineSeverity witnessLintInsight.description ∧
    runLinterCategory 0 "python" [] 1 "x" "" = [] :=
  ⟨(c8_linter_findings.1 0 "some output" "err").1,
   c8_linter_findings.2.1 0 ["a.py:1:2: E999 error bad"] (by decide),
   (c8_linter_findings.2.2.1 0 "a.py:1:2: E999 error bad" witnessLintInsight (by decide)).1,
   c8_linter_findings.2.2.2 0 "python" 1 "x" ""⟩
